import Mathlib

/-!
Verification of the ChatDataLab predicate-filter core.

This file shallowly embeds the two core functions of the repository,
`filter_subset` (src/chatdatalab/get_random.py) and `search_text_matches`
(src/chatdatalab/search.py), together with the pandas operations they
invoke, and proves or refutes the frozen claims about them.

Modelling conventions:
* a pandas DataFrame is a `Table`: a schema (column names with a
  numeric-vs-object dtype classification, mirroring
  `pd.api.types.is_numeric_dtype`) plus a list of rows, each row a list of
  cell `Value`s aligned with the schema;
* numeric cells are rationals (the claims under study do not depend on
  floating-point rounding); missing values (NaN / None) are `Value.null`;
* pandas elementwise `==` never matches a missing value (NaN == x is
  False), while `Series.isin` does match missing against missing — the two
  embeddings `valEqScalar` and `isinEq` record this difference;
* Python exceptions surfaced by the code are the `PyErr` inductive;
  `PyErr.schemaError` models the `ValueError` raised by
  `search_text_matches` for missing required columns (the spec calls it
  `SchemaError`);
* `random.choice` over a non-empty array of `n` candidates is modelled by
  an index argument `pick` used modulo `n`;
* the regular-expression engine used via `str.contains` / `str.match` is
  modelled on the fragment actually exercised by the code: literal
  characters and the `.` metacharacter.  Patterns outside this fragment
  (which Python would interpret as regex operators or reject with
  `re.error`) are reported as `PyErr.unmodelledPattern`.
-/

/-- A cell value: a string, a number (int/float modelled as `ℚ`), or
missing (NaN / None). -/
inductive Value where
  | null : Value
  | num (x : ℚ) : Value
  | str (s : String) : Value
deriving DecidableEq, Repr

/-- Column dtype classification, mirroring `pd.api.types.is_numeric_dtype`. -/
inductive Dtype where
  | numeric : Dtype
  | object : Dtype
deriving DecidableEq, Repr

/-- A row of a table: one cell per schema column. -/
abbrev Row := List Value

/-- A pandas DataFrame: named, dtype-classified columns and a list of rows. -/
structure Table where
  schema : List (String × Dtype)
  rows : List Row
deriving DecidableEq, Repr

/-- A Python value usable as a keyword-argument filter spec: `None`, a
numeric scalar, a string scalar, a tuple of numbers-or-`None` (the range
DSL of the source docstrings), or a list of values (membership DSL). -/
inductive Spec where
  | none : Spec
  | num (x : ℚ) : Spec
  | str (s : String) : Spec
  | tup (xs : List (Option ℚ)) : Spec
  | list (vs : List Value) : Spec
deriving DecidableEq, Repr

/-- A bound as returned by the source's `parse_range` helper: the Python
values that can flow out of it are numbers, strings (default branch on a
string spec) and lists (default branch on a list spec). -/
inductive Bound where
  | num (x : ℚ) : Bound
  | str (s : String) : Bound
  | lst (vs : List Value) : Bound
deriving DecidableEq, Repr

/-- Python exceptions surfaced by the embedded code.  `schemaError` models
the `ValueError` raised by `search_text_matches` when required columns are
missing (it carries the column list interpolated into the message);
`keyError` models pandas `KeyError` on a missing column; `lengthMismatch`
models the pandas `ValueError` for comparing a Series against an
array-like of different length; `typeError` models pandas ordering
comparisons against non-numeric bounds; `unmodelledPattern` marks regex
patterns outside the modelled literal-and-dot fragment. -/
inductive PyErr where
  | schemaError (cols : List String) : PyErr
  | keyError (col : String) : PyErr
  | lengthMismatch : PyErr
  | typeError : PyErr
  | unmodelledPattern : PyErr
deriving DecidableEq, Repr

/-- Result of `search_text_matches`: all distinct group keys, or one chosen
key together with the matching turn-index values inside it. -/
inductive SearchRes where
  | all (keys : List Value) : SearchRes
  | one (key : Value) (turns : List Value) : SearchRes
deriving DecidableEq, Repr

/-- Position and dtype of column `k` in a schema (first occurrence),
counting from `i`. -/
def colInfoAux (k : String) : List (String × Dtype) → Nat → Option (Nat × Dtype)
  | [], _ => Option.none
  | (n, d) :: rest, i => if n = k then Option.some (i, d) else colInfoAux k rest (i + 1)

/-- Position and dtype of column `k` in table `df`. -/
def colInfo (df : Table) (k : String) : Option (Nat × Dtype) :=
  colInfoAux k df.schema 0

/-- Position of column `k` in table `df` (`df.columns` lookup). -/
def colIdx (df : Table) (k : String) : Option Nat :=
  (colInfo df k).map Prod.fst

/-- The Python test `k in df.columns`. -/
def isCol (df : Table) (k : String) : Bool :=
  (colInfo df k).isSome

/-- The values of column number `idx` across `rows` (`df[key]` as a Series). -/
def colVals (idx : Nat) (rows : List Row) : List Value :=
  rows.map (fun r => r.getD idx Value.null)

/-- The `required_columns` list of `search_text_matches`. -/
def requiredColumns : List String := ["message", "conv_id", "turn_num"]

/-- The source's check `all(column in df.columns for column in required_columns)`. -/
def requiredPresent (df : Table) : Bool :=
  requiredColumns.all (fun c => isCol df c)

/-- The required columns absent from `df` (what the spec says the error
should list). -/
def missingCols (df : Table) : List String :=
  requiredColumns.filter (fun c => !(isCol df c))

/-- Pandas elementwise scalar equality `series == v`: missing values never
compare equal (NaN semantics), and cross-type comparisons are `False`. -/
def valEqScalar : Value → Value → Bool
  | Value.num x, Value.num y => decide (x = y)
  | Value.str s, Value.str t => decide (s = t)
  | _, _ => false

/-- Pandas `Series.isin` elementwise membership test: unlike `==`, `isin`
does match a missing value against a missing value in the candidate list. -/
def isinEq : Value → Value → Bool
  | Value.null, Value.null => true
  | Value.num x, Value.num y => decide (x = y)
  | Value.str s, Value.str t => decide (s = t)
  | _, _ => false

/-- Pandas elementwise `series >= x` for a numeric bound: missing values
(NaN) and non-numeric cells compare `False`. -/
def valGe (v : Value) (x : ℚ) : Bool :=
  match v with
  | Value.num y => decide (x ≤ y)
  | _ => false

/-- Pandas elementwise `series <= x` for a numeric bound. -/
def valLe (v : Value) (x : ℚ) : Bool :=
  match v with
  | Value.num y => decide (y ≤ x)
  | _ => false

/-- The `parse_range` helper, duplicated verbatim in `get_random.py` and
`search.py`: `None` ↦ no bounds; numeric scalar `v` ↦ `(v, v)`; tuple of
length 0 ↦ no bounds, length 1 ↦ lower bound only, length ≥ 2 ↦ first two
elements; anything else (string, list) falls through to
`(range_input, range_input)`. -/
def parse_range : Spec → Option Bound × Option Bound
  | Spec.none => (Option.none, Option.none)
  | Spec.num x => (Option.some (Bound.num x), Option.some (Bound.num x))
  | Spec.str s => (Option.some (Bound.str s), Option.some (Bound.str s))
  | Spec.tup [] => (Option.none, Option.none)
  | Spec.tup [a] => (a.map Bound.num, Option.none)
  | Spec.tup (a :: b :: _) => (a.map Bound.num, b.map Bound.num)
  | Spec.list vs => (Option.some (Bound.lst vs), Option.some (Bound.lst vs))

/-- The filter `filtered_df[filtered_df[key] == min_val]` on a numeric
column.  For a scalar bound this is an elementwise scalar comparison; for
a list bound pandas treats the list as array-like: elementwise positional
comparison when the lengths agree, otherwise a `ValueError` ("Lengths must
match to compare"). -/
def eqBFilter (idx : Nat) (b : Bound) (rows : List Row) : Except PyErr (List Row) :=
  match b with
  | Bound.num x => Except.ok (rows.filter (fun r => valEqScalar (r.getD idx Value.null) (Value.num x)))
  | Bound.str s => Except.ok (rows.filter (fun r => valEqScalar (r.getD idx Value.null) (Value.str s)))
  | Bound.lst vs =>
      if rows.length = vs.length then
        Except.ok ((rows.zip vs).filterMap
          (fun p => if valEqScalar (p.1.getD idx Value.null) p.2 then Option.some p.1 else Option.none))
      else Except.error PyErr.lengthMismatch

/-- The filter `filtered_df[filtered_df[key] >= min_val]`.  A non-numeric
bound would raise a pandas `TypeError`; this branch is unreachable from
the source because non-numeric bounds always take the exact-match path. -/
def geBFilter (idx : Nat) (b : Bound) (rows : List Row) : Except PyErr (List Row) :=
  match b with
  | Bound.num x => Except.ok (rows.filter (fun r => valGe (r.getD idx Value.null) x))
  | _ => Except.error PyErr.typeError

/-- The filter `filtered_df[filtered_df[key] <= max_val]`. -/
def leBFilter (idx : Nat) (b : Bound) (rows : List Row) : Except PyErr (List Row) :=
  match b with
  | Bound.num x => Except.ok (rows.filter (fun r => valLe (r.getD idx Value.null) x))
  | _ => Except.error PyErr.typeError

/-- The range-filter arm of the numeric branch: apply the lower bound if
present, then the upper bound if present (two sequential boolean-mask
filters, exactly as in the source). -/
def rangeFilter (idx : Nat) (mn mx : Option Bound) (rows : List Row) : Except PyErr (List Row) :=
  match mn with
  | Option.none =>
    match mx with
    | Option.none => Except.ok rows
    | Option.some b => leBFilter idx b rows
  | Option.some b =>
    match geBFilter idx b rows with
    | Except.error e => Except.error e
    | Except.ok r1 =>
      match mx with
      | Option.none => Except.ok r1
      | Option.some b2 => leBFilter idx b2 r1

/-- The numeric-column branch of the kwargs filter loop: parse the spec
into `(min_val, max_val)`; if both bounds are present and equal take the
exact-match path, otherwise the range path. -/
def numericFilter (idx : Nat) (spec : Spec) (rows : List Row) : Except PyErr (List Row) :=
  match parse_range spec with
  | (Option.some lo, Option.some hi) =>
      if lo = hi then eqBFilter idx lo rows
      else rangeFilter idx (Option.some lo) (Option.some hi) rows
  | (mn, mx) => rangeFilter idx mn mx rows

/-- Pandas elementwise comparison of a cell against a tuple element
(`None` never compares equal). -/
def optEq (v : Value) (o : Option ℚ) : Bool :=
  match o with
  | Option.some x => valEqScalar v (Value.num x)
  | Option.none => false

/-- The string/object-column branch of the kwargs filter loop: a list spec
uses `Series.isin`; any other spec uses elementwise `==` — for a scalar
this is a scalar comparison (`== None` is elementwise `False`), while a
tuple is array-like and compared positionally with pandas length rules. -/
def objectFilter (idx : Nat) (spec : Spec) (rows : List Row) : Except PyErr (List Row) :=
  match spec with
  | Spec.list vs => Except.ok (rows.filter (fun r => vs.any (fun w => isinEq (r.getD idx Value.null) w)))
  | Spec.num x => Except.ok (rows.filter (fun r => valEqScalar (r.getD idx Value.null) (Value.num x)))
  | Spec.str s => Except.ok (rows.filter (fun r => valEqScalar (r.getD idx Value.null) (Value.str s)))
  | Spec.none => Except.ok (rows.filter (fun _ => false))
  | Spec.tup xs =>
      if rows.length = xs.length then
        Except.ok ((rows.zip xs).filterMap
          (fun p => if optEq (p.1.getD idx Value.null) p.2 then Option.some p.1 else Option.none))
      else Except.error PyErr.lengthMismatch

/-- One kwargs filter entry applied to the current filtered rows, given the
column's position and dtype (taken from the original table, as in the
source). -/
def filterEntryI (info : Nat × Dtype) (spec : Spec) (rows : List Row) : Except PyErr (List Row) :=
  match info.2 with
  | Dtype.numeric => numericFilter info.1 spec rows
  | Dtype.object => objectFilter info.1 spec rows

/-- The kwargs filter loop of `filter_subset` (get_random.py): unknown
columns are skipped silently (`continue`), known columns are filtered in
order; a raised pandas exception aborts the loop. -/
def samplerApplyFilters (df : Table) (rows : List Row) : List (String × Spec) → Except PyErr (List Row)
  | [] => Except.ok rows
  | (k, v) :: rest =>
    match colInfo df k with
    | Option.none => samplerApplyFilters df rows rest
    | Option.some info =>
      match filterEntryI info v rows with
      | Except.ok r => samplerApplyFilters df r rest
      | Except.error e => Except.error e

/-- The kwargs filter loop of `search_text_matches` (search.py): identical
filtering, but an unknown column additionally emits a warning naming the
column (the warning is recorded here by its column name) before being
skipped. -/
def searchApplyFilters (df : Table) (rows : List Row) : List (String × Spec) → Except PyErr (List Row) × List String
  | [] => (Except.ok rows, [])
  | (k, v) :: rest =>
    match colInfo df k with
    | Option.none =>
      let p := searchApplyFilters df rows rest
      (p.1, k :: p.2)
    | Option.some info =>
      match filterEntryI info v rows with
      | Except.ok r => searchApplyFilters df r rest
      | Except.error e => (Except.error e, [])

/-- First-occurrence deduplication, as `pandas.Series.unique` (a missing
value is collapsed to a single occurrence like any other value). -/
def uniqueAux (seen : List Value) : List Value → List Value
  | [] => []
  | v :: vs => if v ∈ seen then uniqueAux seen vs else v :: uniqueAux (v :: seen) vs

/-- The distinct values of a column in first-occurrence order
(`Series.unique`). -/
def uniqueFirst (l : List Value) : List Value := uniqueAux [] l

/-- A token of a compiled regular expression, restricted to the fragment
this development models: a literal character or the `.` metacharacter. -/
inductive Tok where
  | lit (c : Char) : Tok
  | dot : Tok
deriving DecidableEq, Repr

/-- Case folding used to model `re.IGNORECASE` (ASCII-adequate). -/
def cfold (caseSensitive : Bool) (c : Char) : Char :=
  if caseSensitive then c else c.toLower

/-- Whether one regex token matches one character.  `.` matches any
character except a newline; a literal matches up to case folding. -/
def tokMatch (caseSensitive : Bool) : Tok → Char → Bool
  | Tok.lit c, d => decide (cfold caseSensitive c = cfold caseSensitive d)
  | Tok.dot, d => decide (d ≠ '\n')

/-- Whether a token sequence matches at the current position, consuming a
prefix of the remaining characters (the semantics of `re.match`). -/
def matchHere (caseSensitive : Bool) : List Tok → List Char → Bool
  | [], _ => true
  | _ :: _, [] => false
  | t :: ts, c :: cs => tokMatch caseSensitive t c && matchHere caseSensitive ts cs

/-- Whether a token sequence matches at some position (the semantics of
`re.search`, which is what `str.contains` with `regex=True` uses). -/
def searchToks (caseSensitive : Bool) (ts : List Tok) : List Char → Bool
  | [] => matchHere caseSensitive ts []
  | c :: cs => matchHere caseSensitive ts (c :: cs) || searchToks caseSensitive ts cs

/-- The regex metacharacters of Python's `re` module. -/
def reSpecials : List Char :=
  ['.', '^', '$', '*', '+', '?', '\x7b', '\x7d', '[', ']', '\\', '|', '(', ')']

/-- Compilation of a raw pattern string in the modelled fragment: `.`
becomes the any-character token, a non-metacharacter becomes a literal,
and any other metacharacter puts the pattern outside the fragment
(`Option.none`). -/
def parsePat : List Char → Option (List Tok)
  | [] => Option.some []
  | c :: cs =>
    if c = '.' then (parsePat cs).map (fun ts => Tok.dot :: ts)
    else if c ∈ reSpecials then Option.none
    else (parsePat cs).map (fun ts => Tok.lit c :: ts)

/-- Compilation of `re.escape(text)`: every character is backslash-escaped
as needed, so the compiled pattern is one literal token per character. -/
def escTokens (q : List Char) : List Tok := q.map Tok.lit

/-- One row of the `from_start=True` text stage:
`str.match("^" + re.escape(text))` with `na=False`.  `str.match` anchors
at position 0 (the explicit `^` is a no-op there), so a string cell
matches when the escaped-literal tokens match a prefix; missing and
non-string cells are `False` via `na=False`. -/
def strMatchRow (caseSensitive : Bool) (q : String) (v : Value) : Bool :=
  match v with
  | Value.str s => matchHere caseSensitive (escTokens q.data) s.data
  | _ => false

/-- One row of the `from_start=False` text stage given the compiled
pattern: `str.contains(text)` with `na=False`, i.e. `re.search`; missing
and non-string cells are `False`. -/
def containsRow (caseSensitive : Bool) (ts : List Tok) (v : Value) : Bool :=
  match v with
  | Value.str s => searchToks caseSensitive ts s.data
  | _ => false

/-- The text-match stage of `search_text_matches`: filter the rows on the
`message` column by prefix match (`from_start=True`, escaped literal) or
by regex containment (`from_start=False`, raw pattern compiled by `re`).
The `message`-column-absent branch cannot be reached from
`search_text_matches` (the required-columns check precedes it). -/
def textStage (df : Table) (text : String) (case_sensitive from_start : Bool) : Except PyErr (List Row) :=
  match colIdx df "message" with
  | Option.none => Except.error (PyErr.keyError "message")
  | Option.some mi =>
    if from_start then
      Except.ok (df.rows.filter (fun r => strMatchRow case_sensitive text (r.getD mi Value.null)))
    else
      match parsePat text.data with
      | Option.some ts => Except.ok (df.rows.filter (fun r => containsRow case_sensitive ts (r.getD mi Value.null)))
      | Option.none => Except.error PyErr.unmodelledPattern

/-- The rows surviving both the text-match stage and the kwargs filters of
`search_text_matches`. -/
def searchSurvivors (df : Table) (text : String) (case_sensitive from_start : Bool)
    (kwargs : List (String × Spec)) : Except PyErr (List Row) :=
  match textStage df text case_sensitive from_start with
  | Except.error e => Except.error e
  | Except.ok r1 => (searchApplyFilters df r1 kwargs).1

/-- The `search_text_matches` function of search.py.  The first component
is the returned value or raised exception; the second lists the warnings
emitted for unknown kwargs columns (recorded by column name).  `pick`
models `random.choice` over the distinct `conv_id` values.  The required
check precedes everything; an empty filtered frame yields `None`; with
`return_all` the distinct `conv_id` values are returned, otherwise one is
chosen and paired with the `turn_num` values of the surviving rows whose
`conv_id` equals it (pandas `==`, so a missing key matches nothing). -/
def search_text_matches (df : Table) (text : String) (case_sensitive from_start return_all : Bool)
    (kwargs : List (String × Spec)) (pick : Nat) : Except PyErr (Option SearchRes) × List String :=
  if requiredPresent df then
    match textStage df text case_sensitive from_start with
    | Except.error e => (Except.error e, [])
    | Except.ok r1 =>
      match searchApplyFilters df r1 kwargs with
      | (Except.error e, w) => (Except.error e, w)
      | (Except.ok rows, w) =>
        if rows.isEmpty then (Except.ok Option.none, w)
        else
          match colIdx df "conv_id", colIdx df "turn_num" with
          | Option.some ci, Option.some ti =>
            let uniq := uniqueFirst (colVals ci rows)
            if return_all then (Except.ok (Option.some (SearchRes.all uniq)), w)
            else
              let g := uniq.getD (pick % uniq.length) Value.null
              (Except.ok (Option.some (SearchRes.one g
                ((rows.filter (fun r => valEqScalar (r.getD ci Value.null) g)).map
                  (fun r => r.getD ti Value.null)))), w)
          | _, _ => (Except.error (PyErr.keyError "conv_id"), w)
  else (Except.error (PyErr.schemaError requiredColumns), [])

theorem requiredPresent_iff (df : Table) : requiredPresent df = true ↔ missingCols df = [] := by
  simp [requiredPresent, missingCols, List.all_eq_true, List.filter_eq_nil_iff]

theorem zipKeep_sublist {α : Type} (q : Row × α → Bool) :
    ∀ (rows : List Row) (ws : List α),
      ((rows.zip ws).filterMap
        (fun p => if q p then Option.some p.1 else Option.none)).Sublist rows := by
  intro rows
  induction rows with
  | nil => intro ws; simp
  | cons r rs ih =>
    intro ws
    cases ws with
    | nil => simp
    | cons w ws' =>
      simp only [List.zip_cons_cons, List.filterMap_cons]
      by_cases hq : q (r, w)
      · simp only [hq, if_pos]
        exact List.Sublist.cons₂ r (ih ws')
      · simp only [hq, if_neg, Bool.false_eq_true, not_false_iff]
        exact List.Sublist.cons r (ih ws')

theorem eqBFilter_sublist (idx : Nat) (b : Bound) (rows r : List Row)
    (h : eqBFilter idx b rows = Except.ok r) : r.Sublist rows := by
  unfold eqBFilter at h
  split at h
  · cases h; exact List.filter_sublist rows
  · cases h; exact List.filter_sublist rows
  · split at h
    · cases h; exact zipKeep_sublist _ rows _
    · cases h

theorem geBFilter_sublist (idx : Nat) (b : Bound) (rows r : List Row)
    (h : geBFilter idx b rows = Except.ok r) : r.Sublist rows := by
  unfold geBFilter at h
  split at h
  · cases h; exact List.filter_sublist rows
  · cases h

theorem leBFilter_sublist (idx : Nat) (b : Bound) (rows r : List Row)
    (h : leBFilter idx b rows = Except.ok r) : r.Sublist rows := by
  unfold leBFilter at h
  split at h
  · cases h; exact List.filter_sublist rows
  · cases h

theorem rangeFilter_sublist (idx : Nat) (mn mx : Option Bound) (rows r : List Row)
    (h : rangeFilter idx mn mx rows = Except.ok r) : r.Sublist rows := by
  unfold rangeFilter at h
  split at h
  · split at h
    · cases h; exact List.Sublist.refl rows
    · exact leBFilter_sublist _ _ _ _ h
  · rename_i b hsplit
    split at h
    · cases h
    · rename_i r1 hge
      have h1 : r1.Sublist rows := geBFilter_sublist _ _ _ _ hge
      split at h
      · cases h; exact h1
      · exact (leBFilter_sublist _ _ _ _ h).trans h1

theorem numericFilter_sublist (idx : Nat) (spec : Spec) (rows r : List Row)
    (h : numericFilter idx spec rows = Except.ok r) : r.Sublist rows := by
  unfold numericFilter at h
  split at h
  · split at h
    · exact eqBFilter_sublist _ _ _ _ h
    · exact rangeFilter_sublist _ _ _ _ _ h
  · exact rangeFilter_sublist _ _ _ _ _ h

theorem objectFilter_sublist (idx : Nat) (spec : Spec) (rows r : List Row)
    (h : objectFilter idx spec rows = Except.ok r) : r.Sublist rows := by
  unfold objectFilter at h
  split at h
  · cases h; exact List.filter_sublist rows
  · cases h; exact List.filter_sublist rows
  · cases h; exact List.filter_sublist rows
  · cases h; exact List.filter_sublist rows
  · split at h
    · cases h; exact zipKeep_sublist _ rows _
    · cases h

theorem filterEntryI_sublist (info : Nat × Dtype) (spec : Spec) (rows r : List Row)
    (h : filterEntryI info spec rows = Except.ok r) : r.Sublist rows := by
  obtain ⟨idx, dt⟩ := info
  cases dt with
  | numeric => exact numericFilter_sublist _ _ _ _ h
  | object => exact objectFilter_sublist _ _ _ _ h

theorem samplerApplyFilters_sublist (df : Table) :
    ∀ (kwargs : List (String × Spec)) (rows r : List Row),
      samplerApplyFilters df rows kwargs = Except.ok r → r.Sublist rows := by
  intro kwargs
  induction kwargs with
  | nil => intro rows r h; cases h; exact List.Sublist.refl rows
  | cons kv rest ih =>
    intro rows r h
    obtain ⟨k, v⟩ := kv
    unfold samplerApplyFilters at h
    split at h
    · exact ih rows r h
    · rename_i info hc
      split at h
      · rename_i r1 hf
        exact (ih r1 r h).trans (filterEntryI_sublist info v rows r1 hf)
      · cases h

theorem sampler_step_none (df : Table) (k : String) (v : Spec) (rest : List (String × Spec))
    (rows : List Row) (hc : colInfo df k = Option.none) :
    samplerApplyFilters df rows ((k, v) :: rest) = samplerApplyFilters df rows rest := by
  simp only [samplerApplyFilters, hc]

theorem sampler_step_ok (df : Table) (k : String) (v : Spec) (rest : List (String × Spec))
    (rows : List Row) (info : Nat × Dtype) (r1 : List Row)
    (hc : colInfo df k = Option.some info) (hf : filterEntryI info v rows = Except.ok r1) :
    samplerApplyFilters df rows ((k, v) :: rest) = samplerApplyFilters df r1 rest := by
  simp only [samplerApplyFilters, hc, hf]

theorem sampler_step_err (df : Table) (k : String) (v : Spec) (rest : List (String × Spec))
    (rows : List Row) (info : Nat × Dtype) (e : PyErr)
    (hc : colInfo df k = Option.some info) (hf : filterEntryI info v rows = Except.error e) :
    samplerApplyFilters df rows ((k, v) :: rest) = Except.error e := by
  simp only [samplerApplyFilters, hc, hf]

theorem searchAF_step_none (df : Table) (k : String) (v : Spec) (rest : List (String × Spec))
    (rows : List Row) (hc : colInfo df k = Option.none) :
    searchApplyFilters df rows ((k, v) :: rest) =
      ((searchApplyFilters df rows rest).1, k :: (searchApplyFilters df rows rest).2) := by
  simp only [searchApplyFilters, hc]

theorem searchAF_step_ok (df : Table) (k : String) (v : Spec) (rest : List (String × Spec))
    (rows : List Row) (info : Nat × Dtype) (r1 : List Row)
    (hc : colInfo df k = Option.some info) (hf : filterEntryI info v rows = Except.ok r1) :
    searchApplyFilters df rows ((k, v) :: rest) = searchApplyFilters df r1 rest := by
  simp only [searchApplyFilters, hc, hf]

theorem searchAF_step_err (df : Table) (k : String) (v : Spec) (rest : List (String × Spec))
    (rows : List Row) (info : Nat × Dtype) (e : PyErr)
    (hc : colInfo df k = Option.some info) (hf : filterEntryI info v rows = Except.error e) :
    searchApplyFilters df rows ((k, v) :: rest) = (Except.error e, []) := by
  simp only [searchApplyFilters, hc, hf]

theorem search_eq_sampler (df : Table) :
    ∀ (kwargs : List (String × Spec)) (rows : List Row),
      (searchApplyFilters df rows kwargs).1 = samplerApplyFilters df rows kwargs := by
  intro kwargs
  induction kwargs with
  | nil => intro rows; rfl
  | cons kv rest ih =>
    intro rows
    obtain ⟨k, v⟩ := kv
    cases hc : colInfo df k with
    | none =>
      rw [sampler_step_none df k v rest rows hc, searchAF_step_none df k v rest rows hc]
      exact ih rows
    | some info =>
      cases hf : filterEntryI info v rows with
      | ok r1 =>
        rw [sampler_step_ok df k v rest rows info r1 hc hf,
            searchAF_step_ok df k v rest rows info r1 hc hf]
        exact ih r1
      | error e =>
        rw [sampler_step_err df k v rest rows info e hc hf,
            searchAF_step_err df k v rest rows info e hc hf]

theorem sampler_pruned (df : Table) :
    ∀ (kwargs : List (String × Spec)) (rows : List Row),
      samplerApplyFilters df rows kwargs =
        samplerApplyFilters df rows (kwargs.filter (fun kv => isCol df kv.1)) := by
  intro kwargs
  induction kwargs with
  | nil => intro rows; rfl
  | cons kv rest ih =>
    intro rows
    obtain ⟨k, v⟩ := kv
    rw [List.filter_cons]
    cases hc : colInfo df k with
    | none =>
      have hcol : isCol df k = false := by simp [isCol, hc]
      simp only [hcol, Bool.false_eq_true, if_neg, not_false_iff]
      rw [sampler_step_none df k v rest rows hc]
      exact ih rows
    | some info =>
      have hcol : isCol df k = true := by simp [isCol, hc]
      simp only [hcol, if_pos]
      cases hf : filterEntryI info v rows with
      | ok r1 =>
        rw [sampler_step_ok df k v rest rows info r1 hc hf,
            sampler_step_ok df k v (rest.filter (fun kv => isCol df kv.1)) rows info r1 hc hf]
        exact ih r1
      | error e =>
        rw [sampler_step_err df k v rest rows info e hc hf,
            sampler_step_err df k v (rest.filter (fun kv => isCol df kv.1)) rows info e hc hf]

theorem searchWarnings_ok (df : Table) :
    ∀ (kwargs : List (String × Spec)) (rows res : List Row),
      (searchApplyFilters df rows kwargs).1 = Except.ok res →
        (searchApplyFilters df rows kwargs).2 =
          (kwargs.filter (fun kv => !(isCol df kv.1))).map Prod.fst := by
  intro kwargs
  induction kwargs with
  | nil => intro rows res _; rfl
  | cons kv rest ih =>
    intro rows res h
    obtain ⟨k, v⟩ := kv
    rw [List.filter_cons]
    cases hc : colInfo df k with
    | none =>
      have hcol : (!(isCol df k)) = true := by simp [isCol, hc]
      rw [searchAF_step_none df k v rest rows hc] at h ⊢
      have h2 : (searchApplyFilters df rows rest).1 = Except.ok res := h
      simp only [hcol, if_pos, List.map_cons]
      simp only [List.cons.injEq, true_and]
      exact ih rows res h2
    | some info =>
      have hcol : (!(isCol df k)) = false := by simp [isCol, hc]
      cases hf : filterEntryI info v rows with
      | ok r1 =>
        rw [searchAF_step_ok df k v rest rows info r1 hc hf] at h ⊢
        simp only [hcol, Bool.false_eq_true, if_neg, not_false_iff]
        exact ih r1 res h
      | error e =>
        rw [searchAF_step_err df k v rest rows info e hc hf] at h
        simp at h

theorem eqBFilter_err (idx : Nat) (b : Bound) (rows : List Row) (e : PyErr)
    (h : eqBFilter idx b rows = Except.error e) : e = PyErr.lengthMismatch := by
  unfold eqBFilter at h
  split at h
  · simp at h
  · simp at h
  · split at h
    · simp at h
    · simp only [Except.error.injEq] at h
      exact h.symm

theorem geBFilter_err (idx : Nat) (b : Bound) (rows : List Row) (e : PyErr)
    (h : geBFilter idx b rows = Except.error e) : e = PyErr.typeError := by
  unfold geBFilter at h
  split at h
  · simp at h
  · simp only [Except.error.injEq] at h
    exact h.symm

theorem leBFilter_err (idx : Nat) (b : Bound) (rows : List Row) (e : PyErr)
    (h : leBFilter idx b rows = Except.error e) : e = PyErr.typeError := by
  unfold leBFilter at h
  split at h
  · simp at h
  · simp only [Except.error.injEq] at h
    exact h.symm

theorem rangeFilter_err (idx : Nat) (mn mx : Option Bound) (rows : List Row) (e : PyErr)
    (h : rangeFilter idx mn mx rows = Except.error e) : e = PyErr.typeError := by
  unfold rangeFilter at h
  split at h
  · split at h
    · simp at h
    · exact leBFilter_err _ _ _ _ h
  · split at h
    · rename_i e1 hge
      simp only [Except.error.injEq] at h
      exact h ▸ geBFilter_err _ _ _ _ hge
    · rename_i r1 hge
      split at h
      · simp at h
      · exact leBFilter_err _ _ _ _ h

theorem numericFilter_err (idx : Nat) (spec : Spec) (rows : List Row) (e : PyErr)
    (h : numericFilter idx spec rows = Except.error e) :
    e = PyErr.lengthMismatch ∨ e = PyErr.typeError := by
  unfold numericFilter at h
  split at h
  · split at h
    · exact Or.inl (eqBFilter_err _ _ _ _ h)
    · exact Or.inr (rangeFilter_err _ _ _ _ _ h)
  · exact Or.inr (rangeFilter_err _ _ _ _ _ h)

theorem objectFilter_err (idx : Nat) (spec : Spec) (rows : List Row) (e : PyErr)
    (h : objectFilter idx spec rows = Except.error e) : e = PyErr.lengthMismatch := by
  unfold objectFilter at h
  split at h
  · simp at h
  · simp at h
  · simp at h
  · simp at h
  · split at h
    · simp at h
    · simp only [Except.error.injEq] at h
      exact h.symm

theorem filterEntryI_err (info : Nat × Dtype) (spec : Spec) (rows : List Row) (e : PyErr)
    (h : filterEntryI info spec rows = Except.error e) :
    e = PyErr.lengthMismatch ∨ e = PyErr.typeError := by
  obtain ⟨idx, dt⟩ := info
  cases dt with
  | numeric => exact numericFilter_err idx spec rows e h
  | object => exact Or.inl (objectFilter_err idx spec rows e h)

theorem samplerApplyFilters_err (df : Table) :
    ∀ (kwargs : List (String × Spec)) (rows : List Row) (e : PyErr),
      samplerApplyFilters df rows kwargs = Except.error e →
        e = PyErr.lengthMismatch ∨ e = PyErr.typeError := by
  intro kwargs
  induction kwargs with
  | nil => intro rows e h; cases h
  | cons kv rest ih =>
    intro rows e h
    obtain ⟨k, v⟩ := kv
    cases hc : colInfo df k with
    | none =>
      rw [sampler_step_none df k v rest rows hc] at h
      exact ih rows e h
    | some info =>
      cases hf : filterEntryI info v rows with
      | ok r1 =>
        rw [sampler_step_ok df k v rest rows info r1 hc hf] at h
        exact ih r1 e h
      | error e1 =>
        rw [sampler_step_err df k v rest rows info e1 hc hf] at h
        simp only [Except.error.injEq] at h
        exact h ▸ filterEntryI_err info v rows e1 hf

theorem uniqueAux_mem (x : Value) :
    ∀ (l seen : List Value), x ∈ uniqueAux seen l → x ∈ l := by
  intro l
  induction l with
  | nil => intro seen h; cases h
  | cons v vs ih =>
    intro seen h
    unfold uniqueAux at h
    split at h
    · exact List.mem_cons_of_mem _ (ih seen h)
    · cases h with
      | head => exact List.mem_cons_self _ _
      | tail _ htail => exact List.mem_cons_of_mem _ (ih (v :: seen) htail)

theorem uniqueFirst_ne_nil (l : List Value) (h : l ≠ []) : uniqueFirst l ≠ [] := by
  cases l with
  | nil => exact absurd rfl h
  | cons v vs =>
    unfold uniqueFirst uniqueAux
    simp

theorem getD_mod_mem (l : List Value) (n : Nat) (h : l ≠ []) :
    l.getD (n % l.length) Value.null ∈ l := by
  have hl : 0 < l.length := List.length_pos.mpr h
  have hm : n % l.length < l.length := Nat.mod_lt _ hl
  rw [List.getD_eq_getElem _ _ hm]
  exact List.getElem_mem hm

theorem valEqScalar_refl (v : Value) (h : v ≠ Value.null) : valEqScalar v v = true := by
  cases v with
  | null => exact absurd rfl h
  | num x => simp [valEqScalar]
  | str s => simp [valEqScalar]

theorem matchHere_lit_iff (q : List Char) :
    ∀ s : List Char, matchHere true (q.map Tok.lit) s = true ↔ q <+: s := by
  induction q with
  | nil =>
    intro s
    simp only [List.map_nil, matchHere]
    exact ⟨fun _ => ⟨s, rfl⟩, fun _ => trivial⟩
  | cons c cs ih =>
    intro s
    cases s with
    | nil =>
      simp [matchHere, List.prefix_nil]
    | cons d ds =>
      rw [List.cons_prefix_cons]
      simp [matchHere, tokMatch, cfold, ih ds, Bool.and_eq_true]

theorem searchToks_lit_iff (q : List Char) :
    ∀ s : List Char, searchToks true (q.map Tok.lit) s = true ↔ q <:+: s := by
  intro s
  induction s with
  | nil =>
    cases q with
    | nil => simp [searchToks, matchHere, List.infix_nil]
    | cons c cs => simp [searchToks, matchHere, List.infix_nil]
  | cons d ds ih =>
    rw [List.infix_cons_iff]
    simp [searchToks, Bool.or_eq_true, matchHere_lit_iff q (d :: ds), ih]

theorem matchHere_fold (q : List Char) :
    ∀ s : List Char, matchHere false (q.map Tok.lit) s =
      matchHere true ((q.map Char.toLower).map Tok.lit) (s.map Char.toLower) := by
  induction q with
  | nil => intro s; rfl
  | cons c cs ih =>
    intro s
    cases s with
    | nil => rfl
    | cons d ds => simp [matchHere, tokMatch, cfold, ih ds]

theorem searchToks_fold (q : List Char) :
    ∀ s : List Char, searchToks false (q.map Tok.lit) s =
      searchToks true ((q.map Char.toLower).map Tok.lit) (s.map Char.toLower) := by
  intro s
  induction s with
  | nil =>
    cases q with
    | nil => rfl
    | cons c cs => rfl
  | cons d ds ih => simp [searchToks, matchHere_fold, ih]

theorem parsePat_noSpecial :
    ∀ q : List Char, (∀ c ∈ q, c ∉ reSpecials) →
      parsePat q = Option.some (q.map Tok.lit) := by
  intro q
  induction q with
  | nil => intro _; rfl
  | cons c cs ih =>
    intro h
    have hc : c ∉ reSpecials := h c (List.mem_cons_self _ _)
    have hdot : ¬(c = '.') := by
      intro hcd
      exact hc (hcd ▸ (by decide : ('.' : Char) ∈ reSpecials))
    unfold parsePat
    rw [if_neg hdot, if_neg hc, ih (fun d hd => h d (List.mem_cons_of_mem _ hd))]
    rfl

theorem isinEq_str (v : Value) (s : String) :
    isinEq v (Value.str s) = valEqScalar v (Value.str s) := by
  cases v <;> rfl

theorem textStage_err (df : Table) (text : String) (cs fs : Bool) (e : PyErr)
    (h : textStage df text cs fs = Except.error e) :
    e = PyErr.keyError "message" ∨ e = PyErr.unmodelledPattern := by
  unfold textStage at h
  split at h
  · simp only [Except.error.injEq] at h
    exact Or.inl h.symm
  · split at h
    · simp at h
    · split at h
      · simp at h
      · simp only [Except.error.injEq] at h
        exact Or.inr h.symm

theorem requiredPresent_cols (df : Table) (h : requiredPresent df = true) :
    isCol df "message" = true ∧ isCol df "conv_id" = true ∧ isCol df "turn_num" = true := by
  simpa [requiredPresent, requiredColumns] using h

theorem isCol_colIdx (df : Table) (k : String) (h : isCol df k = true) :
    ∃ i, colIdx df k = Option.some i := by
  unfold isCol at h
  cases hc : colInfo df k with
  | none => rw [hc] at h; cases h
  | some info =>
    refine ⟨info.1, ?_⟩
    unfold colIdx
    rw [hc]
    rfl

theorem search_no_schemaError (df : Table) (text : String) (cs fs ra : Bool)
    (kwargs : List (String × Spec)) (pick : Nat) (h : requiredPresent df = true) :
    ∀ cols, (search_text_matches df text cs fs ra kwargs pick).1 ≠
      Except.error (PyErr.schemaError cols) := by
  intro cols hcontra
  unfold search_text_matches at hcontra
  rw [if_pos h] at hcontra
  cases ht : textStage df text cs fs with
  | error e =>
    simp only [ht] at hcontra
    simp only [Except.error.injEq] at hcontra
    rcases textStage_err df text cs fs e ht with h1 | h1 <;> rw [h1] at hcontra <;> cases hcontra
  | ok r1 =>
    simp only [ht] at hcontra
    cases hp : searchApplyFilters df r1 kwargs with
    | mk p1 p2 =>
      simp only [hp] at hcontra
      cases p1 with
      | error e =>
        simp only at hcontra
        simp only [Except.error.injEq] at hcontra
        have hsampler : samplerApplyFilters df r1 kwargs = Except.error e := by
          rw [← search_eq_sampler df kwargs r1, hp]
        rcases samplerApplyFilters_err df kwargs r1 e hsampler with h1 | h1 <;>
          rw [h1] at hcontra <;> cases hcontra
      | ok rows =>
        rcases requiredPresent_cols df h with ⟨_, hcv, htn⟩
        obtain ⟨ci, hci⟩ := isCol_colIdx df "conv_id" hcv
        obtain ⟨ti, hti⟩ := isCol_colIdx df "turn_num" htn
        simp only [hci, hti] at hcontra
        split at hcontra
        · simp at hcontra
        · split at hcontra
          · simp at hcontra
          · simp at hcontra

/-! Claim theorems. -/

/-- Claim C1 (amended): for every table, `search_text_matches` fails with
the schema error if and only if at least one required column is missing,
and any schema error it raises carries the full fixed required-column list
`["message", "conv_id", "turn_num"]` — not the list of missing columns;
when all three are present no schema error is raised. -/
theorem claim1_schema_error (df : Table) (text : String) (cs fs ra : Bool)
    (kwargs : List (String × Spec)) (pick : Nat) :
    ((search_text_matches df text cs fs ra kwargs pick).1 =
        Except.error (PyErr.schemaError requiredColumns) ↔ missingCols df ≠ []) ∧
    (∀ cols, (search_text_matches df text cs fs ra kwargs pick).1 =
        Except.error (PyErr.schemaError cols) → cols = requiredColumns) := by
  constructor
  · constructor
    · intro hres hmiss
      have hpres : requiredPresent df = true := (requiredPresent_iff df).mpr hmiss
      exact search_no_schemaError df text cs fs ra kwargs pick hpres requiredColumns hres
    · intro hmiss
      have hpres : requiredPresent df = false := by
        cases hp : requiredPresent df
        · rfl
        · exact absurd ((requiredPresent_iff df).mp hp) hmiss
      unfold search_text_matches
      rw [if_neg (by simp [hpres])]
  · intro cols hres
    cases hp : requiredPresent df
    · unfold search_text_matches at hres
      rw [if_neg (by simp [hp])] at hres
      simp only [Except.error.injEq, PyErr.schemaError.injEq] at hres
      exact hres.symm
    · exact absurd hres (search_no_schemaError df text cs fs ra kwargs pick hp cols)

/-- Claim C1, witness: on the empty table (all three required columns
missing), `search_text_matches` raises the schema error. -/
theorem claim1_witness :
    (search_text_matches ⟨[], []⟩ "q" true true false [] 0).1 =
      Except.error (PyErr.schemaError requiredColumns) :=
  (claim1_schema_error ⟨[], []⟩ "q" true true false [] 0).1.mpr (by decide)

/-- Claim C1, counterexample to the claim as stated: on a table missing
only the `message` column, the raised error lists all three required
columns, not exactly the missing one. -/
theorem claim1_counterexample :
    (search_text_matches ⟨[("conv_id", Dtype.object), ("turn_num", Dtype.numeric)], []⟩
        "q" true true false [] 0).1 = Except.error (PyErr.schemaError requiredColumns) ∧
    missingCols ⟨[("conv_id", Dtype.object), ("turn_num", Dtype.numeric)], []⟩ = ["message"] ∧
    requiredColumns ≠ ["message"] := by
  refine ⟨by rfl, by decide, by decide⟩

/-- Claim C2 (amended): with `from_start=False` the query string is
compiled as a regular-expression pattern; for query strings containing no
regex metacharacter, a row is kept exactly when its text contains the
query as a literal substring (case-folded when `case_sensitive=False`),
and rows whose text cell is missing or non-string never match. -/
theorem claim2_amended (cs : Bool) (q : String) (h : ∀ c ∈ q.data, c ∉ reSpecials) :
    parsePat q.data = Option.some (q.data.map Tok.lit) ∧
    (∀ s : String,
      containsRow cs (q.data.map Tok.lit) (Value.str s) = true ↔
        (if cs then q.data else q.data.map Char.toLower) <:+:
          (if cs then s.data else s.data.map Char.toLower)) ∧
    containsRow cs (q.data.map Tok.lit) Value.null = false ∧
    (∀ x : ℚ, containsRow cs (q.data.map Tok.lit) (Value.num x) = false) := by
  refine ⟨parsePat_noSpecial q.data h, ?_, rfl, fun x => rfl⟩
  intro s
  cases cs with
  | false =>
    show searchToks false (q.data.map Tok.lit) s.data = true ↔
      (q.data.map Char.toLower) <:+: (s.data.map Char.toLower)
    rw [searchToks_fold]
    exact searchToks_lit_iff (q.data.map Char.toLower) (s.data.map Char.toLower)
  | true =>
    show searchToks true (q.data.map Tok.lit) s.data = true ↔ q.data <:+: s.data
    exact searchToks_lit_iff q.data s.data

/-- Claim C2, witness: the metacharacter-free query "py" matches
"sympy" exactly as literal-substring containment. -/
theorem claim2_witness :
    containsRow true ("py".data.map Tok.lit) (Value.str "sympy") = true ↔
      (if true then "py".data else "py".data.map Char.toLower) <:+:
        (if true then "sympy".data else "sympy".data.map Char.toLower) :=
  (claim2_amended true "py" (by decide)).2.1 "sympy"

/-- Claim C2, counterexample to the claim as stated: with
`from_start=False` the query "a.c" keeps a row with text "abc" (the `.`
is a regex metacharacter matching any character), although "a.c" is not a
literal substring of "abc". -/
theorem claim2_counterexample :
    textStage ⟨[("message", Dtype.object)], [[Value.str "abc"]]⟩ "a.c" true false =
      Except.ok [[Value.str "abc"]] ∧
    ¬ ("a.c".data <:+: "abc".data) := by
  refine ⟨by rfl, by decide⟩

/-- Claim C3: with `from_start=True` the text stage keeps a string row
exactly when the text begins with the query taken literally (`re.escape`
makes every character literal); with `case_sensitive=False` the prefix
comparison is case-insensitive; missing text never matches; and in
particular "Hi" matches "Hi there" but not "oh Hi", and
case-insensitively matches "hi there". -/
theorem claim3_from_start (q s : String) :
    (strMatchRow true q (Value.str s) = true ↔ q.data <+: s.data) ∧
    (strMatchRow false q (Value.str s) = true ↔
      q.data.map Char.toLower <+: s.data.map Char.toLower) ∧
    (∀ cs : Bool, strMatchRow cs q Value.null = false) ∧
    strMatchRow true "Hi" (Value.str "Hi there") = true ∧
    strMatchRow true "Hi" (Value.str "oh Hi") = false ∧
    strMatchRow false "Hi" (Value.str "hi there") = true := by
  refine ⟨?_, ?_, fun cs => rfl, by decide, by decide, by decide⟩
  · exact matchHere_lit_iff q.data s.data
  · show matchHere false (q.data.map Tok.lit) s.data = true ↔ _
    rw [matchHere_fold]
    exact matchHere_lit_iff (q.data.map Char.toLower) (s.data.map Char.toLower)

theorem sampler_singleton (df : Table) (k : String) (v : Spec) (rows : List Row)
    (info : Nat × Dtype) (hc : colInfo df k = Option.some info) :
    samplerApplyFilters df rows [(k, v)] = filterEntryI info v rows := by
  cases hf : filterEntryI info v rows with
  | ok r1 => rw [sampler_step_ok df k v [] rows info r1 hc hf]; rfl
  | error e => exact sampler_step_err df k v [] rows info e hc hf

/-- Claim C4: the filter stage never mutates its input (it is a pure
function of the table in this embedding, as the source operates on
`df.copy()`); every successful result is a sublist of the input rows —
a subset by row identity, in original order — and the empty filter set
returns exactly the input rows. -/
theorem claim4_invariants (df : Table) (kwargs : List (String × Spec)) :
    (∀ res, samplerApplyFilters df df.rows kwargs = Except.ok res → res.Sublist df.rows) ∧
    samplerApplyFilters df df.rows [] = Except.ok df.rows :=
  ⟨fun res h => samplerApplyFilters_sublist df kwargs df.rows res h, rfl⟩

/-- Claim C4, witness: a concrete filter keeps a sublist of the input. -/
theorem claim4_witness :
    List.Sublist [[Value.str "user"]] [[Value.str "user"], [Value.str "sys"]] :=
  (claim4_invariants ⟨[("role", Dtype.object)], [[Value.str "user"], [Value.str "sys"]]⟩
    [("role", Spec.str "user")]).1 [[Value.str "user"]] (by rfl)

/-- Claim C5: on a numeric column, the bare scalar spec `v` and the
2-element range spec `(v, v)` produce identical results (both take the
exact-match path of the filter). -/
theorem claim5_scalar_eq_range (df : Table) (k : String) (idx : Nat)
    (h : colInfo df k = Option.some (idx, Dtype.numeric)) (x : ℚ) (rows : List Row) :
    samplerApplyFilters df rows [(k, Spec.num x)] =
      samplerApplyFilters df rows [(k, Spec.tup [Option.some x, Option.some x])] := by
  rw [sampler_singleton df k (Spec.num x) rows (idx, Dtype.numeric) h,
      sampler_singleton df k (Spec.tup [Option.some x, Option.some x]) rows
        (idx, Dtype.numeric) h]
  show numericFilter idx (Spec.num x) rows =
    numericFilter idx (Spec.tup [Option.some x, Option.some x]) rows
  simp [numericFilter, parse_range]

/-- Claim C5, witness at a concrete table and value. -/
theorem claim5_witness :
    samplerApplyFilters ⟨[("turns", Dtype.numeric)], []⟩ [[Value.num 3]]
        [("turns", Spec.num 3)] =
      samplerApplyFilters ⟨[("turns", Dtype.numeric)], []⟩ [[Value.num 3]]
        [("turns", Spec.tup [Option.some 3, Option.some 3])] :=
  claim5_scalar_eq_range ⟨[("turns", Dtype.numeric)], []⟩ "turns" 0 (by rfl) 3 [[Value.num 3]]

/-- Claim C6: on a numeric column, the range spec `(lo, None)` and the
1-element tuple spec `(lo,)` produce identical results, and both keep
exactly the rows whose column value is a number `≥ lo` (missing values
never satisfy the bound). -/
theorem claim6_lower_bound (df : Table) (k : String) (idx : Nat)
    (h : colInfo df k = Option.some (idx, Dtype.numeric)) (lo : ℚ) (rows : List Row) :
    samplerApplyFilters df rows [(k, Spec.tup [Option.some lo, Option.none])] =
      samplerApplyFilters df rows [(k, Spec.tup [Option.some lo])] ∧
    samplerApplyFilters df rows [(k, Spec.tup [Option.some lo])] =
      Except.ok (rows.filter (fun r => valGe (r.getD idx Value.null) lo)) ∧
    (∀ v : Value, valGe v lo = true ↔ ∃ y : ℚ, v = Value.num y ∧ lo ≤ y) := by
  refine ⟨?_, ?_, ?_⟩
  · rw [sampler_singleton df k _ rows (idx, Dtype.numeric) h,
        sampler_singleton df k _ rows (idx, Dtype.numeric) h]
    rfl
  · rw [sampler_singleton df k _ rows (idx, Dtype.numeric) h]
    rfl
  · intro v
    cases v <;> simp [valGe]

/-- Claim C6, witness at a concrete table. -/
theorem claim6_witness :
    samplerApplyFilters ⟨[("turns", Dtype.numeric)], []⟩ [[Value.num 7], [Value.num 2]]
        [("turns", Spec.tup [Option.some 5, Option.none])] =
      samplerApplyFilters ⟨[("turns", Dtype.numeric)], []⟩ [[Value.num 7], [Value.num 2]]
        [("turns", Spec.tup [Option.some 5])] :=
  (claim6_lower_bound ⟨[("turns", Dtype.numeric)], []⟩ "turns" 0 (by rfl) 5
    [[Value.num 7], [Value.num 2]]).1

/-- Claim C7: on a non-numeric column, a list of string scalars keeps
exactly the rows whose value equals a member of the list, a bare string
scalar keeps exactly the rows whose value equals it, and the singleton
list `[x]` produces the same result as the bare scalar `x`. -/
theorem claim7_membership (df : Table) (k : String) (idx : Nat)
    (h : colInfo df k = Option.some (idx, Dtype.object)) :
    (∀ (ss : List String) (rows : List Row),
      samplerApplyFilters df rows [(k, Spec.list (ss.map Value.str))] =
        Except.ok (rows.filter
          (fun r => ss.any (fun s => valEqScalar (r.getD idx Value.null) (Value.str s))))) ∧
    (∀ (x : String) (rows : List Row),
      samplerApplyFilters df rows [(k, Spec.str x)] =
        Except.ok (rows.filter (fun r => valEqScalar (r.getD idx Value.null) (Value.str x)))) ∧
    (∀ (x : String) (rows : List Row),
      samplerApplyFilters df rows [(k, Spec.list [Value.str x])] =
        samplerApplyFilters df rows [(k, Spec.str x)]) := by
  refine ⟨?_, ?_, ?_⟩
  · intro ss rows
    rw [sampler_singleton df k _ rows (idx, Dtype.object) h]
    have hfun : (fun r : Row => (ss.map Value.str).any fun w => isinEq (r.getD idx Value.null) w) =
        (fun r : Row => ss.any fun s => valEqScalar (r.getD idx Value.null) (Value.str s)) := by
      funext r
      induction ss with
      | nil => rfl
      | cons a as ih => simp only [List.map_cons, List.any_cons, isinEq_str, ih]
    show Except.ok (rows.filter
        (fun r : Row => (ss.map Value.str).any fun w => isinEq (r.getD idx Value.null) w)) = _
    rw [hfun]
  · intro x rows
    rw [sampler_singleton df k _ rows (idx, Dtype.object) h]
    rfl
  · intro x rows
    rw [sampler_singleton df k _ rows (idx, Dtype.object) h,
        sampler_singleton df k _ rows (idx, Dtype.object) h]
    show objectFilter idx (Spec.list [Value.str x]) rows = objectFilter idx (Spec.str x) rows
    unfold objectFilter
    simp only [List.any_cons, List.any_nil, Bool.or_false, isinEq_str]

/-- Claim C7, witness at a concrete table. -/
theorem claim7_witness :
    samplerApplyFilters ⟨[("role", Dtype.object)], []⟩ [[Value.str "user"], [Value.null]]
        [("role", Spec.list [Value.str "user"])] =
      samplerApplyFilters ⟨[("role", Dtype.object)], []⟩ [[Value.str "user"], [Value.null]]
        [("role", Spec.str "user")] :=
  (claim7_membership ⟨[("role", Dtype.object)], []⟩ "role" 0 (by rfl)).2.2 "user"
    [[Value.str "user"], [Value.null]]

/-- Claim C8: both consumers produce the same result as if entries naming
unknown columns were removed from the filter set; the two independently
written loops agree row-for-row; and when the search loop completes
without a pandas error it emits exactly one warning per unknown column
(the sampler's loop has no warning channel at all — it skips silently). -/
theorem claim8_unknown_columns (df : Table) (rows : List Row) (kwargs : List (String × Spec)) :
    samplerApplyFilters df rows kwargs =
      samplerApplyFilters df rows (kwargs.filter (fun kv => isCol df kv.1)) ∧
    (searchApplyFilters df rows kwargs).1 = samplerApplyFilters df rows kwargs ∧
    (∀ res, (searchApplyFilters df rows kwargs).1 = Except.ok res →
      (searchApplyFilters df rows kwargs).2 =
        (kwargs.filter (fun kv => !(isCol df kv.1))).map Prod.fst) :=
  ⟨sampler_pruned df kwargs rows, search_eq_sampler df kwargs rows,
    fun res h => searchWarnings_ok df kwargs rows res h⟩

/-- Claim C8, witness: one unknown column yields exactly one warning. -/
theorem claim8_witness :
    (searchApplyFilters ⟨[("role", Dtype.object)], []⟩ [[Value.str "u"]]
      [("bogus", Spec.str "x"), ("role", Spec.str "u")]).2 = ["bogus"] :=
  (claim8_unknown_columns ⟨[("role", Dtype.object)], []⟩ [[Value.str "u"]]
    [("bogus", Spec.str "x"), ("role", Spec.str "u")]).2.2 [[Value.str "u"]] (by rfl)

/-- Claim C10 (amended): whenever `search_text_matches` with
`return_all=false` returns a (group key, turn list) pair, the chosen key
is one of the distinct group keys of the surviving rows, the turn list is
exactly the `turn_num` values of the surviving rows whose `conv_id`
equals the key under pandas `==` (so every listed turn comes from a
surviving row of that group, in surviving order), and the list is
non-empty whenever the chosen key is non-null — but when the chosen key
is null the pandas equality matches nothing and the list is empty. -/
theorem claim10_pair_provenance (df : Table) (text : String) (cs fs : Bool)
    (kwargs : List (String × Spec)) (pick : Nat) (g : Value) (turns : List Value)
    (h : (search_text_matches df text cs fs false kwargs pick).1 =
      Except.ok (Option.some (SearchRes.one g turns))) :
    ∃ ci ti rows,
      colIdx df "conv_id" = Option.some ci ∧
      colIdx df "turn_num" = Option.some ti ∧
      searchSurvivors df text cs fs kwargs = Except.ok rows ∧
      rows ≠ [] ∧
      g ∈ uniqueFirst (colVals ci rows) ∧
      turns = (rows.filter (fun r => valEqScalar (r.getD ci Value.null) g)).map
        (fun r => r.getD ti Value.null) ∧
      (∀ x ∈ turns, ∃ r, r ∈ rows ∧ valEqScalar (r.getD ci Value.null) g = true ∧
        r.getD ti Value.null = x) ∧
      (g ≠ Value.null → turns ≠ []) := by
  unfold search_text_matches at h
  by_cases hreq : requiredPresent df = true
  case neg =>
    rw [if_neg hreq] at h
    simp at h
  rw [if_pos hreq] at h
  cases ht : textStage df text cs fs with
  | error e =>
    simp only [ht] at h
    simp at h
  | ok r1 =>
    simp only [ht] at h
    cases hp : searchApplyFilters df r1 kwargs with
    | mk p1 w =>
      simp only [hp] at h
      cases p1 with
      | error e => simp at h
      | ok rows =>
        simp only at h
        by_cases hre : rows.isEmpty = true
        · rw [if_pos hre] at h
          simp at h
        · have hre' : rows.isEmpty = false := by
            cases hb : rows.isEmpty
            · rfl
            · exact absurd hb hre
          rw [if_neg hre] at h
          rcases requiredPresent_cols df hreq with ⟨hm, hcv, htn⟩
          obtain ⟨ci, hci⟩ := isCol_colIdx df "conv_id" hcv
          obtain ⟨ti, hti⟩ := isCol_colIdx df "turn_num" htn
          simp only [hci, hti] at h
          rw [if_neg (by decide : ¬(false = true))] at h
          simp only [Except.ok.injEq, Option.some.injEq, SearchRes.one.injEq] at h
          obtain ⟨hg, hturns⟩ := h
          rw [hg] at hturns
          have hrows_ne : rows ≠ [] := by
            intro hnil
            rw [hnil] at hre'
            cases hre'
          have huniq_ne : uniqueFirst (colVals ci rows) ≠ [] := by
            apply uniqueFirst_ne_nil
            intro hnil
            cases rows with
            | nil => exact hrows_ne rfl
            | cons a rs => cases hnil
          have hgmem : g ∈ uniqueFirst (colVals ci rows) := by
            rw [← hg]
            exact getD_mod_mem _ pick huniq_ne
          refine ⟨ci, ti, rows, hci, hti, ?_, hrows_ne, hgmem, hturns.symm, ?_, ?_⟩
          · unfold searchSurvivors
            simp only [ht, hp]
          · intro x hx
            rw [← hturns] at hx
            obtain ⟨r, hrmem, hrx⟩ := List.mem_map.mp hx
            obtain ⟨hrrows, hreq2⟩ := List.mem_filter.mp hrmem
            exact ⟨r, hrrows, hreq2, hrx⟩
          · intro hgnull
            rw [← hturns]
            have hgcol : g ∈ colVals ci rows := uniqueAux_mem g (colVals ci rows) [] hgmem
            obtain ⟨r, hrrows, hrg⟩ := List.mem_map.mp hgcol
            have hkeep : valEqScalar (r.getD ci Value.null) g = true := by
              rw [hrg]
              exact valEqScalar_refl g hgnull
            have hrfil : r ∈ rows.filter (fun r => valEqScalar (r.getD ci Value.null) g) :=
              List.mem_filter.mpr ⟨hrrows, hkeep⟩
            intro hmapnil
            rw [List.map_eq_nil_iff] at hmapnil
            rw [hmapnil] at hrfil
            cases hrfil

/-- Claim C10, witness: a concrete search returning a pair, with the
provenance properties instantiated. -/
theorem claim10_witness :
    ∃ ci ti rows,
      colIdx ⟨[("message", Dtype.object), ("conv_id", Dtype.object),
          ("turn_num", Dtype.numeric)], [[Value.str "hi", Value.str "a", Value.num 1]]⟩
        "conv_id" = Option.some ci ∧
      colIdx ⟨[("message", Dtype.object), ("conv_id", Dtype.object),
          ("turn_num", Dtype.numeric)], [[Value.str "hi", Value.str "a", Value.num 1]]⟩
        "turn_num" = Option.some ti ∧
      searchSurvivors ⟨[("message", Dtype.object), ("conv_id", Dtype.object),
          ("turn_num", Dtype.numeric)], [[Value.str "hi", Value.str "a", Value.num 1]]⟩
        "hi" true false [] = Except.ok rows ∧
      rows ≠ [] ∧
      Value.str "a" ∈ uniqueFirst (colVals ci rows) ∧
      [Value.num 1] = (rows.filter
        (fun r => valEqScalar (r.getD ci Value.null) (Value.str "a"))).map
          (fun r => r.getD ti Value.null) ∧
      (∀ x ∈ [Value.num 1], ∃ r, r ∈ rows ∧
        valEqScalar (r.getD ci Value.null) (Value.str "a") = true ∧
        r.getD ti Value.null = x) ∧
      (Value.str "a" ≠ Value.null → [Value.num 1] ≠ []) :=
  claim10_pair_provenance ⟨[("message", Dtype.object), ("conv_id", Dtype.object),
      ("turn_num", Dtype.numeric)], [[Value.str "hi", Value.str "a", Value.num 1]]⟩
    "hi" true false [] 0 (Value.str "a") [Value.num 1] (by rfl)

/-- Claim C10, counterexample to the claim as stated: when the only
surviving row has a null group key, the chosen key is null, the pandas
equality `conv_id == key` matches nothing, and the returned turn-index
sequence is empty — the pair is returned with an empty list. -/
theorem claim10_counterexample :
    search_text_matches ⟨[("message", Dtype.object), ("conv_id", Dtype.object),
        ("turn_num", Dtype.numeric)], [[Value.str "hi", Value.null, Value.num 1]]⟩
      "hi" true false false [] 0 =
      (Except.ok (Option.some (SearchRes.one Value.null [])), []) := by
  rfl
